import Mathlib

/-!
Verification of the ATS-MINI remote serial backend.

This file gives a shallow embedding, in Lean, of the serial protocol logic of
src/backend.py and of the standalone src/screenshot.py capture tool, and
settles the specification claims about them.

Modelling conventions:
* Python strings are Lean String values; splitting, stripping and upper casing
  are reimplemented structurally over the character lists so that the kernel
  can evaluate them on concrete inputs.
* Python int(s) and float(s) on already stripped fields are modelled by the
  functions pyInt? and pyFloat? returning Option values; a failed conversion
  models a raised ValueError.  Exotic accepted spellings (embedded
  underscores, surrounding whitespace, exponents, inf and nan) are not
  modelled; no claim depends on them.
* CPython float formatting with a fixed number of decimal digits is modelled
  by exact rational rounding, ties to even.  For the 6 and 3 decimal cases the
  printed value is exact, so the model agrees with CPython on the whole
  relevant range; for the 2 decimal FM case the two can differ on sub ulp
  ties of the binary double, which no claim depends on.
* Wall clock bounded loops are modelled by the finite list of reads that
  complete inside the loop window, in order.
-/

set_option autoImplicit false

namespace ATSMini

/-- The white space characters removed by Python str.strip (ASCII subset). -/
def isSpaceChar (c : Char) : Bool :=
  c = ' ' || c = '\t' || c = '\n' || c = '\r' || c = '\x0b' || c = '\x0c'

/-- Python str.strip. -/
def pyStrip (s : String) : String :=
  String.mk (((s.data.dropWhile isSpaceChar).reverse.dropWhile isSpaceChar).reverse)

/-- Auxiliary splitter over character lists, used for Python str.split(sep). -/
def pySplitCharAux (sep : Char) : List Char → List Char → List (List Char)
  | [], acc => [acc.reverse]
  | c :: cs, acc =>
    if c = sep then acc.reverse :: pySplitCharAux sep cs []
    else pySplitCharAux sep cs (c :: acc)

/-- Python str.split(sep) for a one character separator. -/
def pySplitChar (sep : Char) (s : String) : List String :=
  (pySplitCharAux sep s.data []).map String.mk

/-- ASCII upper casing of one character, as used by Python str.upper on the
mode strings that occur here. -/
def pyUpperChar (c : Char) : Char :=
  if 'a' ≤ c && c ≤ 'z' then Char.ofNat (c.toNat - 32) else c

/-- Python str.upper (ASCII subset). -/
def pyUpper (s : String) : String := String.mk (s.data.map pyUpperChar)

/-- Numeric value of a digit string (the caller checks the digits). -/
def natOfDigits (cs : List Char) : Nat :=
  cs.foldl (fun a c => a * 10 + (c.toNat - 48)) 0

/-- A nonempty all digit character list. -/
def allDigits (cs : List Char) : Bool := !cs.isEmpty && cs.all Char.isDigit

/-- Digits to integer, or failure. -/
def pyIntDigits? (cs : List Char) : Option Int :=
  if allDigits cs then some ((natOfDigits cs : Nat) : Int) else none

/-- Python int(s) on a stripped string: optional sign, then decimal digits. -/
def pyInt? (s : String) : Option Int :=
  match s.data with
  | '-' :: rest => (pyIntDigits? rest).map (fun n => -n)
  | '+' :: rest => pyIntDigits? rest
  | cs => pyIntDigits? cs

/-- Python float(s) on a stripped string: optional sign, digits with an
optional decimal point.  The exact value is returned as a mantissa and a
decimal scale, meaning mantissa / 10 ^ scale. -/
def pyFloat? (s : String) : Option (Int × Nat) :=
  let signAndRest : Int × List Char :=
    match s.data with
    | '-' :: r => (-1, r)
    | '+' :: r => (1, r)
    | r => (1, r)
  match pySplitCharAux '.' signAndRest.2 [] with
  | [ip] =>
    if allDigits ip then some (signAndRest.1 * (natOfDigits ip : Int), 0) else none
  | [ip, fp] =>
    if (ip.all Char.isDigit && fp.all Char.isDigit) && !(ip.isEmpty && fp.isEmpty) then
      some (signAndRest.1 * ((natOfDigits ip : Int) * 10 ^ fp.length + (natOfDigits fp : Int)),
        fp.length)
    else none
  | _ => none

/-- Round a / b for positive b to the nearest integer, ties to even. -/
def rheDiv (a : Int) (b : Int) : Int :=
  let q := Int.fdiv a b
  let r := a - q * b
  if 2 * r < b then q
  else if b < 2 * r then q + 1
  else if Int.emod q 2 = 0 then q else q + 1

/-- Decimal rendering of a natural number, as Python str. -/
def natRepr (n : Nat) : String := Nat.repr n

/-- Decimal rendering of an integer, as Python str. -/
def intRepr (n : Int) : String :=
  if n < 0 then "-" ++ Nat.repr n.natAbs else Nat.repr n.natAbs

/-- Pad a digit string with leading zeros up to width k. -/
def padZeros (s : String) (k : Nat) : String :=
  String.mk (List.replicate (k - s.data.length) '0' ++ s.data)

/-- Fixed point decimal rendering of n / 10 ^ k with exactly k digits after
the point, matching the CPython f string output when the value is exactly
representable at that precision. -/
def fmtScaled (n : Int) (k : Nat) : String :=
  let sign := if n < 0 then "-" else ""
  let m := n.natAbs
  if k = 0 then sign ++ natRepr m
  else sign ++ natRepr (m / 10 ^ k) ++ "." ++ padZeros (natRepr (m % 10 ^ k)) k

/-- A Python value handed to format_frequency for freq_khz or bfo_hz: in the
backend these are either parsed integers or raw field strings. -/
inductive PyVal where
  | int (n : Int)
  | str (s : String)
deriving DecidableEq

/-- Python int(v): identity on ints, parse on strings. -/
def PyVal.toInt? : PyVal → Option Int
  | PyVal.int n => some n
  | PyVal.str s => pyInt? s

/-- Python f string interpolation of the value. -/
def PyVal.fstr : PyVal → String
  | PyVal.int n => intRepr n
  | PyVal.str s => s

/-- Embedding of format_frequency, src/backend.py lines 107 to 128.  The
try block is modelled by Option: any failing int conversion reaches the
except branch, which returns the raw value annotated with " (raw)". -/
def format_frequency (freq_khz bfo_hz : PyVal) (mode : Option String) : String :=
  let mm := pyUpper (mode.getD "")
  if mm = "USB" || mm = "LSB" || mm = "SSB" then
    match freq_khz.toInt?, bfo_hz.toInt? with
    | some f, some b => fmtScaled (f * 1000 + b) 6 ++ " MHz"
    | _, _ => freq_khz.fstr ++ " (raw)"
  else
    match freq_khz.toInt? with
    | some f =>
      if mm = "FM" then fmtScaled (rheDiv f 10) 2 ++ " MHz"
      else if mm = "AM" then
        if f < 1000 then intRepr f ++ " kHz" else fmtScaled f 3 ++ " MHz"
      else fmtScaled f 3 ++ " MHz"
    | none => freq_khz.fstr ++ " (raw)"

/-- The frequency formatter exactly as the specification words it: numeric
raw values are dispatched on the upper cased mode (USB, LSB, SSB get the
6 digit megahertz rendering of raw kHz times 1000 plus the BFO hertz, FM the
2 digit megahertz rendering of raw kHz over 1000, AM the integer kilohertz
value below 1000 kHz and the 3 digit megahertz rendering otherwise, anything
else the 3 digit megahertz rendering), and a non numeric raw value, including
a non numeric BFO needed by the single sideband formula, falls back to the
raw value annotated as unformatted. -/
def format_frequency_spec (freq_khz bfo_hz : PyVal) (mode : Option String) : String :=
  match freq_khz.toInt? with
  | none => freq_khz.fstr ++ " (raw)"
  | some f =>
    let mm := pyUpper (mode.getD "")
    if mm = "USB" || mm = "LSB" || mm = "SSB" then
      match bfo_hz.toInt? with
      | none => freq_khz.fstr ++ " (raw)"
      | some b => fmtScaled (f * 1000 + b) 6 ++ " MHz"
    else if mm = "FM" then fmtScaled (rheDiv f 10) 2 ++ " MHz"
    else if mm = "AM" then
      if f < 1000 then intRepr f ++ " kHz" else fmtScaled f 3 ++ " MHz"
    else fmtScaled f 3 ++ " MHz"

/-- C1: for every raw frequency, BFO offset and mode, format_frequency
produces exactly the mode specific display string demanded by the
specification: 6 decimal megahertz of raw times 1000 plus BFO for USB, LSB
and SSB (case insensitive), 2 decimal megahertz of raw over 1000 for FM,
integer kilohertz below 1000 kHz and 3 decimal megahertz otherwise for AM,
3 decimal megahertz for unknown modes, and the raw value annotated as
unformatted when the conversion to int fails. -/
theorem claim1_format_frequency_matches_spec
    (freq_khz bfo_hz : PyVal) (mode : Option String) :
    format_frequency freq_khz bfo_hz mode = format_frequency_spec freq_khz bfo_hz mode := by
  unfold format_frequency format_frequency_spec
  rcases hf : freq_khz.toInt? with _ | f <;>
    rcases hb : bfo_hz.toInt? with _ | b <;>
    simp only [hf, hb] <;> split_ifs <;> rfl

example : format_frequency (PyVal.int 7200) (PyVal.int 0) (some "USB") = "7.200000 MHz" := by
  decide

example : format_frequency (PyVal.int 810) (PyVal.int 0) (some "AM") = "810 kHz" := by
  decide

example : format_frequency (PyVal.int 101100) (PyVal.int 0) (some "fm") = "101.10 MHz" := by
  decide

example : format_frequency (PyVal.str "oops") (PyVal.int 0) (some "AM") = "oops (raw)" := by
  decide

/-- The Python value stored under the voltage key by parse_monitor_line:
None, the converted number held as an integer count of thousandths of a
volt (the value rounded to 3 decimal places), or the raw field when float
conversion fails. -/
inductive VoltVal where
  | pyNone
  | num (milli : Int)
  | raw (s : String)
deriving DecidableEq

/-- The dictionary built by parse_monitor_line.  A field equal to none
models a key that was never assigned, which happens when an int conversion
raised before the assignment; the volume, rssi_raw and snr_raw values are
themselves optional because Python stores None for blank or missing
fields. -/
structure ParseOut where
  raw_parts_count : Option Nat := none
  fw_version : Option String := none
  currentFrequency_raw : Option Int := none
  currentBFO : Option Int := none
  bandCal : Option String := none
  bandName : Option String := none
  mode : Option String := none
  stepIdx : Option String := none
  bandwidthIdx : Option String := none
  agcIdx : Option String := none
  volume : Option (Option Int) := none
  rssi_raw : Option (Option Int) := none
  snr_raw : Option (Option Int) := none
  tuningCapacitor : Option String := none
  voltage : Option VoltVal := none
  seqnum : Option String := none
  frequency : Option String := none
  rssi : Option String := none
  snr : Option String := none
  parse_error : Option String := none
deriving DecidableEq

/-- parts[i] if len(parts) > i else the empty string. -/
def strField (parts : List String) (i : Nat) : String := (parts.get? i).getD ""

/-- int(parts[i]) if len(parts) > i and parts[i] is not blank else None;
an error models the ValueError raised on a non numeric field. -/
def pyIntField (parts : List String) (i : Nat) : Except String (Option Int) :=
  match parts.get? i with
  | none => Except.ok none
  | some s =>
    if s = "" then Except.ok none
    else
      match pyInt? s with
      | some n => Except.ok (some n)
      | none => Except.error ("invalid literal for int() with base 10: " ++ s)

/-- The voltage block of parse_monitor_line: blank or missing gives None,
a numeric field v is converted by v times 1.702 over 1000 rounded to 3
decimal places (held in thousandths: for v equal to m over 10 ^ k this is
m times 1702 over 10 ^ k times 1000, rounded ties to even), and a non
numeric field is stored raw by the inner except branch. -/
def voltField (parts : List String) (i : Nat) : VoltVal :=
  match parts.get? i with
  | none => VoltVal.pyNone
  | some s =>
    if s = "" then VoltVal.pyNone
    else
      match pyFloat? s with
      | some mv => VoltVal.num (rheDiv (mv.1 * 1702) ((10 : Int) ^ mv.2 * 1000))
      | none => VoltVal.raw s

/-- The derived RSSI string: value followed by dBuV, empty for None. -/
def rssiString : Option Int → String
  | some n => intRepr n ++ " dBuV"
  | none => ""

/-- The derived SNR string: value followed by dB, empty for None. -/
def snrString : Option Int → String
  | some n => intRepr n ++ " dB"
  | none => ""

/-- The body of parse_monitor_line after the comma split, mirroring the
assignment order of src/backend.py lines 133 to 163: any int conversion
that raises jumps to the except branch with the keys assigned so far. -/
def parseFromParts (parts : List String) : ParseOut :=
  let base : ParseOut :=
    { raw_parts_count := some parts.length
      fw_version := some (strField parts 0) }
  match pyIntField parts 1 with
  | Except.error e => { base with parse_error := some e }
  | Except.ok fOpt =>
  match pyIntField parts 2 with
  | Except.error e => { base with parse_error := some e }
  | Except.ok bOpt =>
  let freq_khz : Int := fOpt.getD 0
  let bfo_hz : Int := bOpt.getD 0
  let o1 : ParseOut :=
    { base with
      currentFrequency_raw := some freq_khz
      currentBFO := some bfo_hz
      bandCal := some (strField parts 3)
      bandName := some (strField parts 4)
      mode := some (strField parts 5)
      stepIdx := some (strField parts 6)
      bandwidthIdx := some (strField parts 7)
      agcIdx := some (strField parts 8) }
  match pyIntField parts 9 with
  | Except.error e => { o1 with parse_error := some e }
  | Except.ok vol =>
  let o2 : ParseOut := { o1 with volume := some vol }
  match pyIntField parts 10 with
  | Except.error e => { o2 with parse_error := some e }
  | Except.ok rs =>
  let o3 : ParseOut := { o2 with rssi_raw := some rs }
  match pyIntField parts 11 with
  | Except.error e => { o3 with parse_error := some e }
  | Except.ok sn =>
  { o3 with
    snr_raw := some sn
    tuningCapacitor := some (strField parts 12)
    voltage := some (voltField parts 13)
    seqnum := some (strField parts 14)
    frequency := some (format_frequency (PyVal.int freq_khz) (PyVal.int bfo_hz)
      (some (strField parts 5)))
    rssi := some (rssiString rs)
    snr := some (snrString sn) }

/-- The comma split with per field stripping of parse_monitor_line. -/
def partsOfLine (line : String) : List String :=
  (pySplitChar ',' line).map pyStrip

/-- Embedding of parse_monitor_line, src/backend.py lines 130 to 164. -/
def parse_monitor_line (line : String) : ParseOut := parseFromParts (partsOfLine line)

example :
    parse_monitor_line "1.0.0,7200,0,10,40m,USB,3,2,1,15,-90,12,128,210,42" =
      { raw_parts_count := some 15
        fw_version := some "1.0.0"
        currentFrequency_raw := some 7200
        currentBFO := some 0
        bandCal := some "10"
        bandName := some "40m"
        mode := some "USB"
        stepIdx := some "3"
        bandwidthIdx := some "2"
        agcIdx := some "1"
        volume := some (some 15)
        rssi_raw := some (some (-90))
        snr_raw := some (some 12)
        tuningCapacitor := some "128"
        voltage := some (VoltVal.num 357)
        seqnum := some "42"
        frequency := some "7.200000 MHz"
        rssi := some "-90 dBuV"
        snr := some "12 dB"
        parse_error := none } := by
  decide

/-- The mutable monitor state of src/backend.py: the raw line buffer, the
published snapshot (none models the initial empty dict) and the observed
flag. -/
structure MonitorState where
  latest_raw_line : String := ""
  monitor_parsed : Option ParseOut := none
  monitor_active : Bool := false
deriving DecidableEq

/-- The publication gate of monitor_reader_thread, line 187: the Python
truthiness of parsed.get currentFrequency_raw or parsed.get fw_version.
The dict itself is always truthy since raw_parts_count is always set. -/
def snapshot_valid (p : ParseOut) : Bool :=
  (match p.currentFrequency_raw with
   | some n => n != 0
   | none => false) ||
  (match p.fw_version with
   | some s => s != ""
   | none => false)

/-- Does the line contain a comma. -/
def containsComma (s : String) : Bool := s.data.any (fun c => c = ',')

/-- One iteration of monitor_reader_thread, src/backend.py lines 166 to 194,
for one successfully decoded raw line: strip it, skip it when empty,
otherwise record it in the raw line buffer and, when it contains a comma,
parse it and publish the snapshot only when the gate accepts it. -/
def monitor_reader_step (st : MonitorState) (raw : String) : MonitorState :=
  let line := pyStrip raw
  if line = "" then st
  else
    let st1 : MonitorState := { st with latest_raw_line := line }
    if containsComma line then
      let parsed := parse_monitor_line line
      if snapshot_valid parsed then
        { st1 with monitor_parsed := some parsed, monitor_active := true }
      else st1
    else st1

/-- A device handle: the pyserial Serial object with its open state. -/
structure Handle where
  port : String
  baud : Nat
  isOpen : Bool
deriving DecidableEq

/-- The module level ser variable. -/
structure SerialState where
  ser : Option Handle := none
deriving DecidableEq

def DEFAULT_BAUD : Nat := 112500

def FALLBACK_BAUD : Nat := 9600

/-- Embedding of open_serial, src/backend.py lines 42 to 69, for an
explicitly given port.  env tells whether the operating system open succeeds
at a given baud rate.  Any previously held handle is closed first (close
errors are swallowed); on total failure the module still points at that
closed handle, because the code raises without resetting ser. -/
def open_serial (env : Nat → Bool) (st : SerialState) (port : String) (baud : Nat) :
    SerialState × Except String Handle :=
  let closedPrior : SerialState :=
    { ser := st.ser.map (fun h => { h with isOpen := false }) }
  if env baud then
    let h : Handle := { port := port, baud := baud, isOpen := true }
    ({ ser := some h }, Except.ok h)
  else if baud = DEFAULT_BAUD then
    if env FALLBACK_BAUD then
      let h : Handle := { port := port, baud := FALLBACK_BAUD, isOpen := true }
      ({ ser := some h }, Except.ok h)
    else (closedPrior, Except.error ("Failed to open serial on " ++ port))
  else (closedPrior, Except.error ("Failed open " ++ port))

/-- Failure modes of send_serial_raw: the explicit RuntimeError raised when
ser is None, and the OSError propagating out of pyserial calls on a handle
that is no longer usable. -/
inductive SendErr where
  | noLink
  | osError
deriving DecidableEq

/-- What a send performs: the exact text written to the wire and the
response lines collected. -/
structure SendOut where
  written : String
  lines : List String
deriving DecidableEq

instance instDecEqExcept {ε α : Type} [DecidableEq ε] [DecidableEq α] :
    DecidableEq (Except ε α) := fun a b =>
  match a, b with
  | Except.error e1, Except.error e2 =>
    match decEq e1 e2 with
    | isTrue h => isTrue (congrArg Except.error h)
    | isFalse h => isFalse (fun hh => h (Except.error.inj hh))
  | Except.error _, Except.ok _ => isFalse (fun hh => Except.noConfusion hh)
  | Except.ok _, Except.error _ => isFalse (fun hh => Except.noConfusion hh)
  | Except.ok a1, Except.ok a2 =>
    match decEq a1 a2 with
    | isTrue h => isTrue (congrArg Except.ok h)
    | isFalse h => isFalse (fun hh => h (Except.ok.inj hh))

/-- Does the string end with a line feed, Python cmd.endswith of a newline. -/
def endsNL (s : String) : Bool :=
  match s.data.getLast? with
  | some c => c = '\n'
  | none => false

/-- The newline handling of send_serial_raw, src/backend.py lines 81 to 84:
append one newline when the command does not already end with one. -/
def normalize_cmd (cmd : String) : String :=
  if endsNL cmd then cmd else cmd ++ "\n"

/-- The collection loop of send_serial_raw, lines 88 to 105, over the reads
that complete inside the timeout window: empty reads and blank lines are
skipped, non empty stripped lines are appended, and the loop breaks once the
collected count reaches wait_lines.  A list exhausted early models the
timeout elapsing with fewer lines. -/
def collect_lines : List String → Nat → List String
  | [], _ => []
  | r :: rest, wait_lines =>
    let line := pyStrip r
    if line = "" then collect_lines rest wait_lines
    else if wait_lines ≤ 1 then [line]
    else line :: collect_lines rest (wait_lines - 1)

/-- Embedding of send_serial_raw, src/backend.py lines 71 to 105: raises the
no link error when ser is None, fails with an OSError on a closed handle,
and otherwise writes the normalized command and returns the collected
lines. -/
def send_serial_raw (st : SerialState) (cmd : String) (reads : List String)
    (wait_lines : Nat) : Except SendErr SendOut :=
  match st.ser with
  | none => Except.error SendErr.noLink
  | some h =>
    if h.isOpen then
      Except.ok { written := normalize_cmd cmd, lines := collect_lines reads wait_lines }
    else Except.error SendErr.osError

/-- Hex value of one character, as accepted by binascii.unhexlify. -/
def hexVal? (c : Char) : Option Nat :=
  if c.isDigit then some (c.toNat - 48)
  else if 'a' ≤ c && c ≤ 'f' then some (c.toNat - 87)
  else if 'A' ≤ c && c ≤ 'F' then some (c.toNat - 55)
  else none

/-- binascii.unhexlify over a character list: pairs of hex digits become
bytes; an odd length or a non hex character fails. -/
def unhexChars : List Char → Option (List Nat)
  | [] => some []
  | [_] => none
  | c1 :: c2 :: rest =>
    match hexVal? c1, hexVal? c2, unhexChars rest with
    | some h1, some h2, some bs => some ((h1 * 16 + h2) :: bs)
    | _, _, _ => none

/-- binascii.unhexlify. -/
def unhexlify (s : String) : Option (List Nat) := unhexChars s.data

/-- Even length and all hex digits. -/
def isValidHex (s : String) : Bool :=
  (s.data.length % 2 == 0) && s.data.all (fun c => (hexVal? c).isSome)

/-- Removal of carriage returns and line feeds, src/screenshot.py line 28. -/
def stripCRLF (s : String) : String :=
  String.mk (s.data.filter (fun c => !(c = '\r' || c = '\n')))

/-- Embedding of the decode half of src/screenshot.py, lines 17 to 39: the
chunks read from the port are concatenated, the line terminators removed,
and the result decoded as hex; a decode failure exits with an error and
writes no output file, modelled by none. -/
def screenshot_main (chunks : List String) : Option (List Nat) :=
  unhexlify (stripCRLF (String.join chunks))

/-- The byte size cap of the api_screenshot accumulation loop, line 268. -/
def SCREENSHOT_CAP : Nat := 10000000

/-- The accumulation loop of api_screenshot, src/backend.py lines 254 to
269, over the reads completing inside the 5 second window: blank lines are
skipped, stripped lines are appended, and the loop breaks once the joined
length exceeds the cap (the line that crosses the cap is kept). -/
def screenshot_accumulate : List String → Nat → List String
  | [], _ => []
  | r :: rest, acc =>
    let line := pyStrip r
    if line = "" then screenshot_accumulate rest acc
    else if SCREENSHOT_CAP < acc + line.length then [line]
    else line :: screenshot_accumulate rest (acc + line.length)

/-- The JSON level outcome of the api_screenshot route. -/
inductive ApiResult where
  | ok (hex : String)
  | err (msg : String)
deriving DecidableEq

/-- Embedding of api_screenshot, src/backend.py lines 250 to 272: with a
usable link it returns ok with the accumulated hex text joined by newlines;
it performs no hex decoding at all. -/
def api_screenshot (st : SerialState) (reads : List String) : ApiResult :=
  match st.ser with
  | none => ApiResult.err "Serial port not opened"
  | some h =>
    if h.isOpen then
      ApiResult.ok (String.intercalate "\n" (screenshot_accumulate reads 0))
    else ApiResult.err "device error"

/-- A wire operation against the device handle together with whether
serial_lock is held while it runs. -/
inductive WireOp where
  | write (locked : Bool)
  | read (locked : Bool)
  | reopen (locked : Bool)
deriving DecidableEq

/-- Whether the operation runs under serial_lock. -/
def WireOp.lockHeld : WireOp → Bool
  | WireOp.write l => l
  | WireOp.read l => l
  | WireOp.reopen l => l

/-- The wire operations of one send_serial_raw call with the given number of
readline pulls: the write and every read happen inside with serial_lock,
src/backend.py lines 79 to 105. -/
def send_serial_raw_ops (reads : Nat) : List WireOp :=
  WireOp.write true :: List.replicate reads (WireOp.read true)

/-- The wire operation of one monitor_reader_thread iteration: a single
readline inside with serial_lock, src/backend.py lines 173 and 174. -/
def monitor_reader_ops : List WireOp := [WireOp.read true]

/-- The wire operations of one api_screenshot call: the trigger send runs
under the lock, but every readline of the accumulation loop at
src/backend.py line 257 runs with no lock held. -/
def api_screenshot_ops (accumReads : Nat) : List WireOp :=
  send_serial_raw_ops 1 ++ List.replicate accumReads (WireOp.read false)

/-- The wire operations of open_serial: the close and reopen of the handle
happen with no lock held, src/backend.py lines 42 to 69. -/
def open_serial_ops : List WireOp := [WireOp.reopen false]

theorem mod2_succ_succ (n : Nat) : (n + 1 + 1) % 2 = n % 2 := by omega

theorem unhexChars_isSome : ∀ cs : List Char,
    (unhexChars cs).isSome = ((cs.length % 2 == 0) && cs.all fun c => (hexVal? c).isSome)
  | [] => by simp [unhexChars]
  | [c] => by simp [unhexChars]
  | c1 :: c2 :: rest => by
    have ih := unhexChars_isSome rest
    rcases h1 : hexVal? c1 with _ | v1 <;> rcases h2 : hexVal? c2 with _ | v2 <;>
      rcases h3 : unhexChars rest with _ | bs <;>
      rw [h3] at ih <;>
      simp only [Option.isSome_some, Option.isSome_none] at ih <;>
      simp only [unhexChars, h1, h2, h3, List.length_cons, mod2_succ_succ, List.all_cons,
        Option.isSome_some, Option.isSome_none, Bool.false_and, Bool.and_false,
        Bool.true_and, Bool.and_true] <;>
      exact ih

/-- C2 counterexample: the backend screenshot capture, fed the single
accumulated line ZZZ, returns success carrying the undecoded text ZZZ even
though ZZZ is not valid hexadecimal, so the operation neither decodes the
stream nor fails with a protocol error on malformed hex. -/
theorem claim2_counterexample :
    api_screenshot { ser := some { port := "COM3", baud := 112500, isOpen := true } } ["ZZZ"]
        = ApiResult.ok "ZZZ"
      ∧ isValidHex "ZZZ" = false ∧ unhexlify "ZZZ" = none := by
  decide

/-- C2 amended: the backend capture route accumulates the stream until its
wall clock timeout or byte size cap and returns the hex text undecoded,
succeeding even on malformed content; the hex decoding and the failure on
malformed hex (odd length or a non hex character), with no output produced,
live in the standalone screenshot tool. -/
theorem claim2_screenshot_split (st : SerialState) (h : Handle) (reads : List String)
    (chunks : List String) (hser : st.ser = some h) (hopen : h.isOpen = true) :
    api_screenshot st reads
        = ApiResult.ok (String.intercalate "\n" (screenshot_accumulate reads 0))
      ∧ (screenshot_main chunks = none ↔
          isValidHex (stripCRLF (String.join chunks)) = false)
      ∧ (isValidHex (stripCRLF (String.join chunks)) = true →
          ∃ bytes, screenshot_main chunks = some bytes) := by
  refine ⟨by simp [api_screenshot, hser, hopen], ?_, ?_⟩
  · have hs := unhexChars_isSome (stripCRLF (String.join chunks)).data
    constructor
    · intro hnone
      have : (unhexlify (stripCRLF (String.join chunks))).isSome = false := by
        simpa [screenshot_main, hnone] using congrArg Option.isSome hnone
      simp only [unhexlify] at this
      rw [this] at hs
      simpa [isValidHex] using hs.symm
    · intro hbad
      have : (unhexlify (stripCRLF (String.join chunks))).isSome = false := by
        simp only [unhexlify, hs]
        simpa [isValidHex] using hbad
      simpa [screenshot_main, Option.isSome_iff_exists] using
        Option.not_isSome_iff_eq_none.mp (by simp [this])
  · intro hgood
    have : (unhexlify (stripCRLF (String.join chunks))).isSome = true := by
      simp only [unhexlify, unhexChars_isSome]
      simpa [isValidHex] using hgood
    rcases Option.isSome_iff_exists.mp this with ⟨bytes, hb⟩
    exact ⟨bytes, by simpa [screenshot_main] using hb⟩

/-- C2 witness: a concrete open link, the valid stream 48656C6C6F decoding
to Hello, and the malformed stream ZZ exclamation failing. -/
theorem claim2_witness :
    api_screenshot { ser := some { port := "COM3", baud := 112500, isOpen := true } }
        ["48", "656C6C6F"] = ApiResult.ok "48\n656C6C6F"
      ∧ screenshot_main ["48656C6C6F"] = some [72, 101, 108, 108, 111]
      ∧ screenshot_main ["ZZ!"] = none := by
  have h1 := (claim2_screenshot_split
    { ser := some { port := "COM3", baud := 112500, isOpen := true } }
    { port := "COM3", baud := 112500, isOpen := true }
    ["48", "656C6C6F"] ["ZZ!"] rfl rfl).1
  have h2 := ((claim2_screenshot_split
    { ser := some { port := "COM3", baud := 112500, isOpen := true } }
    { port := "COM3", baud := 112500, isOpen := true }
    ["48", "656C6C6F"] ["ZZ!"] rfl rfl).2.1).mpr (by decide)
  refine ⟨by rw [h1]; decide, by decide, h2⟩

/-- The valid observation predicate as the claim words it: a non empty
firmware version or a nonzero raw frequency, with a missing key treated as
its falsy Python default. -/
def validObservation (p : ParseOut) : Prop :=
  p.fw_version.getD "" ≠ "" ∨ p.currentFrequency_raw.getD 0 ≠ 0

instance validObservation_dec (p : ParseOut) : Decidable (validObservation p) :=
  inferInstanceAs (Decidable (p.fw_version.getD "" ≠ "" ∨ p.currentFrequency_raw.getD 0 ≠ 0))

theorem snapshot_valid_iff (p : ParseOut) : snapshot_valid p = true ↔ validObservation p := by
  unfold snapshot_valid validObservation
  cases hf : p.currentFrequency_raw <;> cases hv : p.fw_version <;>
    simp [hf, hv, Option.getD, or_comm]

/-- C3: the reader loop replaces the published snapshot only if the parsed
snapshot carries a non empty firmware version or a nonzero raw frequency,
and a parsed line with neither never replaces the published snapshot. -/
theorem claim3_reader_gate (st : MonitorState) (raw : String) :
    ((monitor_reader_step st raw).monitor_parsed ≠ st.monitor_parsed →
        validObservation (parse_monitor_line (pyStrip raw)))
      ∧ (¬ validObservation (parse_monitor_line (pyStrip raw)) →
        (monitor_reader_step st raw).monitor_parsed = st.monitor_parsed) := by
  unfold monitor_reader_step
  by_cases hline : pyStrip raw = ""
  · simp [hline]
  · by_cases hc : containsComma (pyStrip raw)
    · by_cases hv : snapshot_valid (parse_monitor_line (pyStrip raw))
      · exact ⟨fun _ => (snapshot_valid_iff _).mp hv,
          fun hn => absurd ((snapshot_valid_iff _).mp hv) hn⟩
      · simp [hline, hc, hv]
    · simp [hline, hc]

/-- C3 witness: the line consisting of a single comma parses to an empty
firmware version and frequency 0 and leaves the published snapshot
untouched. -/
theorem claim3_witness :
    (monitor_reader_step
      { latest_raw_line := ""
        monitor_parsed := none
        monitor_active := false } ",").monitor_parsed = none :=
  (claim3_reader_gate
    { latest_raw_line := "", monitor_parsed := none, monitor_active := false } ",").2
    (by decide)

theorem collect_lines_of_few : ∀ (reads : List String) (w : Nat),
    ((reads.map pyStrip).filter (fun l => l != "")).length < w →
    collect_lines reads w = (reads.map pyStrip).filter (fun l => l != "")
  | [], w, _ => by simp [collect_lines]
  | r :: rest, w, h => by
    by_cases hr : pyStrip r = ""
    · have h' : ((rest.map pyStrip).filter (fun l => l != "")).length < w := by
        simpa [hr] using h
      simp [collect_lines, hr, collect_lines_of_few rest w h']
    · have hlen : ((rest.map pyStrip).filter (fun l => l != "")).length + 1 < w := by
        simpa [hr] using h
      have hw : ¬ (w ≤ 1) := by omega
      have h' : ((rest.map pyStrip).filter (fun l => l != "")).length < w - 1 := by omega
      simp [collect_lines, hr, hw, collect_lines_of_few rest (w - 1) h']

/-- C5: with an open link, when the reads completing inside the timeout
window carry fewer non empty lines than requested, send_serial_raw returns
the possibly empty ordered list of all lines collected so far and raises no
error. -/
theorem claim5_timeout_returns_collected (st : SerialState) (h : Handle) (cmd : String)
    (reads : List String) (wait_lines : Nat) (hser : st.ser = some h)
    (hopen : h.isOpen = true)
    (hfew : ((reads.map pyStrip).filter (fun l => l != "")).length < wait_lines) :
    send_serial_raw st cmd reads wait_lines =
      Except.ok
        { written := normalize_cmd cmd
          lines := (reads.map pyStrip).filter (fun l => l != "") } := by
  simp [send_serial_raw, hser, hopen, collect_lines_of_few reads wait_lines hfew]

/-- C5 witness: a command expecting 5 lines while the window yields only
the two non empty lines a and b returns exactly those two, no error. -/
theorem claim5_witness :
    send_serial_raw { ser := some { port := "COM3", baud := 112500, isOpen := true } }
        "v" ["a", "", " b "] 5 =
      Except.ok { written := "v\n", lines := ["a", "b"] } := by
  have h := claim5_timeout_returns_collected
    { ser := some { port := "COM3", baud := 112500, isOpen := true } }
    { port := "COM3", baud := 112500, isOpen := true }
    "v" ["a", "", " b "] 5 rfl rfl (by decide)
  rw [h]; decide

/-- C6: opening at the primary default baud rate retries exactly once at the
fixed fallback rate when the first open fails, yielding an open handle at
the fallback rate on success; opening at any other baud rate fails
immediately on open failure, whatever the fallback rate would have done. -/
theorem claim6_baud_fallback (env : Nat → Bool) (st : SerialState) (port : String) :
    (env DEFAULT_BAUD = false → env FALLBACK_BAUD = true →
        (open_serial env st port DEFAULT_BAUD).2 =
          Except.ok { port := port, baud := FALLBACK_BAUD, isOpen := true })
      ∧ (∀ baud, baud ≠ DEFAULT_BAUD → env baud = false →
        ∃ e, (open_serial env st port baud).2 = Except.error e) := by
  constructor
  · intro h1 h2
    simp [open_serial, h1, h2]
  · intro baud hne hfail
    refine ⟨"Failed open " ++ port, ?_⟩
    simp [open_serial, hfail, hne]

/-- C6 witness: an environment where only the fallback rate opens, and a non
default requested rate of 300 that fails with no fallback attempted. -/
theorem claim6_witness :
    (open_serial (fun b => b == FALLBACK_BAUD) { ser := none } "COM3" DEFAULT_BAUD).2 =
        Except.ok { port := "COM3", baud := FALLBACK_BAUD, isOpen := true }
      ∧ ∃ e, (open_serial (fun b => b == FALLBACK_BAUD) { ser := none } "COM3" 300).2 =
        Except.error e :=
  ⟨(claim6_baud_fallback (fun b => b == FALLBACK_BAUD) { ser := none } "COM3").1
      (by decide) (by decide),
    (claim6_baud_fallback (fun b => b == FALLBACK_BAUD) { ser := none } "COM3").2
      300 (by decide) (by decide)⟩

/-- C7: the claim that every wire operation runs under the exclusive lock is
false on the code.  The command channel write and reads and the reader loop
read do hold serial_lock, but the screenshot accumulation loop performs its
readline calls with no lock held, and the reopen of open_serial is likewise
unguarded, so screenshot reads are not mutually exclusive with the reader
loop and a reconnect is not excluded while reads are in flight. -/
theorem claim7_unlocked_screenshot_reads :
    (∀ op ∈ send_serial_raw_ops 4, op.lockHeld = true)
      ∧ (∀ op ∈ monitor_reader_ops, op.lockHeld = true)
      ∧ WireOp.read false ∈ api_screenshot_ops 1
      ∧ ¬ (∀ op ∈ api_screenshot_ops 1, op.lockHeld = true)
      ∧ WireOp.reopen false ∈ open_serial_ops
      ∧ ¬ (∀ op ∈ open_serial_ops, op.lockHeld = true) := by
  decide

/-- C7 witness: the trigger write of the screenshot route does hold the
lock, instantiating the locked operation facts of the theorem at a concrete
operation. -/
theorem claim7_witness : (WireOp.write true).lockHeld = true :=
  claim7_unlocked_screenshot_reads.1 (WireOp.write true) (by decide)

/-- C8 counterexample: a command already ending in two line terminators is
written unchanged, so the text on the wire ends with two line terminators
rather than exactly one. -/
theorem claim8_counterexample :
    send_serial_raw { ser := some { port := "COM3", baud := 112500, isOpen := true } }
        "t\n\n" [] 1 = Except.ok { written := "t\n\n", lines := [] }
      ∧ ("t\n\n".data.reverse.takeWhile (fun c => c = '\n')).length = 2 := by
  decide

/-- C8 amended: the text written to the link is the command with one line
terminator appended when it does not already end with one; a command already
ending in a line terminator is written unchanged, so any extra trailing
terminators are preserved rather than collapsed to exactly one. -/
theorem claim8_newline_append (st : SerialState) (h : Handle) (cmd : String)
    (reads : List String) (wait_lines : Nat) (hser : st.ser = some h)
    (hopen : h.isOpen = true) :
    ∃ out, send_serial_raw st cmd reads wait_lines = Except.ok out
      ∧ (endsNL cmd = false → out.written = cmd ++ "\n")
      ∧ (endsNL cmd = true → out.written = cmd)
      ∧ endsNL out.written = true := by
  refine ⟨{ written := normalize_cmd cmd, lines := collect_lines reads wait_lines },
    by simp [send_serial_raw, hser, hopen], ?_, ?_, ?_⟩
  · intro hend
    simp [normalize_cmd, hend]
  · intro hend
    simp [normalize_cmd, hend]
  · by_cases hend : endsNL cmd
    · simp [normalize_cmd, hend]
    · have : normalize_cmd cmd = cmd ++ "\n" := by simp [normalize_cmd, hend]
      rw [this]
      show (match (cmd ++ "\n").data.getLast? with
        | some c => decide (c = '\n')
        | none => false) = true
      rw [show (cmd ++ "\n").data = cmd.data ++ ['\n'] from rfl]
      rw [List.getLast?_concat]
      simp

/-- C8 witness: the command v, not newline terminated, is written as v
followed by exactly one newline. -/
theorem claim8_witness :
    ∃ out, send_serial_raw { ser := some { port := "COM3", baud := 112500, isOpen := true } }
        "v" [] 1 = Except.ok out
      ∧ (endsNL "v" = false → out.written = "v" ++ "\n")
      ∧ (endsNL "v" = true → out.written = "v")
      ∧ endsNL out.written = true :=
  claim8_newline_append { ser := some { port := "COM3", baud := 112500, isOpen := true } }
    { port := "COM3", baud := 112500, isOpen := true } "v" [] 1 rfl rfl

/-- C9: after a successful open, a later reopen that fails at every
attempted baud rate leaves ser pointing at the prior handle, now closed,
rather than resetting it to None; a subsequent send therefore does not fail
with the no link open error even though no usable link exists. -/
theorem claim9_stale_handle (env : Nat → Bool) (st : SerialState) (port : String)
    (baud : Nat) (h : Handle) (hser : st.ser = some h)
    (hfail : env baud = false) (hfb : env FALLBACK_BAUD = false) :
    (∃ e, (open_serial env st port baud).2 = Except.error e)
      ∧ (open_serial env st port baud).1.ser = some { h with isOpen := false }
      ∧ ∀ cmd reads wait_lines,
          send_serial_raw (open_serial env st port baud).1 cmd reads wait_lines ≠
            Except.error SendErr.noLink := by
  by_cases hb : baud = DEFAULT_BAUD
  · subst hb
    refine ⟨⟨"Failed to open serial on " ++ port, ?_⟩, ?_, ?_⟩
    · simp [open_serial, hfail, hfb]
    · simp [open_serial, hfail, hfb, hser]
    · intro cmd reads wait_lines
      simp [open_serial, hfail, hfb, hser, send_serial_raw]
  · refine ⟨⟨"Failed open " ++ port, ?_⟩, ?_, ?_⟩
    · simp [open_serial, hfail, hb]
    · simp [open_serial, hfail, hb, hser]
    · intro cmd reads wait_lines
      simp [open_serial, hfail, hb, hser, send_serial_raw]

/-- Field i is beyond the available field count or blank. -/
def blankOrMissing (parts : List String) (i : Nat) : Prop :=
  parts.get? i = none ∨ parts.get? i = some ""

instance blankOrMissing_dec (parts : List String) (i : Nat) :
    Decidable (blankOrMissing parts i) :=
  inferInstanceAs (Decidable (parts.get? i = none ∨ parts.get? i = some ""))

/-- The int conversion of field i raises a ValueError. -/
def fieldAborts (parts : List String) (i : Nat) : Bool :=
  match pyIntField parts i with
  | Except.error _ => true
  | Except.ok _ => false

theorem pyIntField_blank (parts : List String) (i : Nat) (h : blankOrMissing parts i) :
    pyIntField parts i = Except.ok none := by
  rcases h with h | h
  · unfold pyIntField
    rw [h]
  · unfold pyIntField
    rw [h]
    simp

theorem pyIntField_ok_blank (parts : List String) (i : Nat) (v : Option Int)
    (h : pyIntField parts i = Except.ok v) (hb : blankOrMissing parts i) : v = none :=
  Except.ok.inj (h.symm.trans (pyIntField_blank parts i hb))

theorem voltField_blank (parts : List String) (i : Nat) (h : blankOrMissing parts i) :
    voltField parts i = VoltVal.pyNone := by
  rcases h with h | h
  · unfold voltField
    rw [h]
  · unfold voltField
    rw [h]
    simp

theorem parseFromParts_abort1 (parts : List String) (e : String)
    (h1 : pyIntField parts 1 = Except.error e) :
    parseFromParts parts =
      { raw_parts_count := some parts.length
        fw_version := some (strField parts 0)
        parse_error := some e } := by
  unfold parseFromParts
  rw [h1]

theorem parseFromParts_abort2 (parts : List String) (f : Option Int) (e : String)
    (h1 : pyIntField parts 1 = Except.ok f) (h2 : pyIntField parts 2 = Except.error e) :
    parseFromParts parts =
      { raw_parts_count := some parts.length
        fw_version := some (strField parts 0)
        parse_error := some e } := by
  unfold parseFromParts
  rw [h1, h2]

theorem parseFromParts_abort9 (parts : List String) (f b : Option Int) (e : String)
    (h1 : pyIntField parts 1 = Except.ok f) (h2 : pyIntField parts 2 = Except.ok b)
    (h9 : pyIntField parts 9 = Except.error e) :
    parseFromParts parts =
      { raw_parts_count := some parts.length
        fw_version := some (strField parts 0)
        currentFrequency_raw := some (f.getD 0)
        currentBFO := some (b.getD 0)
        bandCal := some (strField parts 3)
        bandName := some (strField parts 4)
        mode := some (strField parts 5)
        stepIdx := some (strField parts 6)
        bandwidthIdx := some (strField parts 7)
        agcIdx := some (strField parts 8)
        parse_error := some e } := by
  unfold parseFromParts
  rw [h1, h2, h9]

theorem parseFromParts_abort10 (parts : List String) (f b : Option Int) (v9 : Option Int)
    (e : String) (h1 : pyIntField parts 1 = Except.ok f) (h2 : pyIntField parts 2 = Except.ok b)
    (h9 : pyIntField parts 9 = Except.ok v9) (h10 : pyIntField parts 10 = Except.error e) :
    parseFromParts parts =
      { raw_parts_count := some parts.length
        fw_version := some (strField parts 0)
        currentFrequency_raw := some (f.getD 0)
        currentBFO := some (b.getD 0)
        bandCal := some (strField parts 3)
        bandName := some (strField parts 4)
        mode := some (strField parts 5)
        stepIdx := some (strField parts 6)
        bandwidthIdx := some (strField parts 7)
        agcIdx := some (strField parts 8)
        volume := some v9
        parse_error := some e } := by
  unfold parseFromParts
  rw [h1, h2, h9, h10]

theorem parseFromParts_abort11 (parts : List String) (f b : Option Int)
    (v9 v10 : Option Int) (e : String)
    (h1 : pyIntField parts 1 = Except.ok f) (h2 : pyIntField parts 2 = Except.ok b)
    (h9 : pyIntField parts 9 = Except.ok v9) (h10 : pyIntField parts 10 = Except.ok v10)
    (h11 : pyIntField parts 11 = Except.error e) :
    parseFromParts parts =
      { raw_parts_count := some parts.length
        fw_version := some (strField parts 0)
        currentFrequency_raw := some (f.getD 0)
        currentBFO := some (b.getD 0)
        bandCal := some (strField parts 3)
        bandName := some (strField parts 4)
        mode := some (strField parts 5)
        stepIdx := some (strField parts 6)
        bandwidthIdx := some (strField parts 7)
        agcIdx := some (strField parts 8)
        volume := some v9
        rssi_raw := some v10
        parse_error := some e } := by
  unfold parseFromParts
  rw [h1, h2, h9, h10, h11]

theorem parseFromParts_ok (parts : List String) (f b : Option Int)
    (v9 v10 v11 : Option Int)
    (h1 : pyIntField parts 1 = Except.ok f) (h2 : pyIntField parts 2 = Except.ok b)
    (h9 : pyIntField parts 9 = Except.ok v9) (h10 : pyIntField parts 10 = Except.ok v10)
    (h11 : pyIntField parts 11 = Except.ok v11) :
    parseFromParts parts =
      { raw_parts_count := some parts.length
        fw_version := some (strField parts 0)
        currentFrequency_raw := some (f.getD 0)
        currentBFO := some (b.getD 0)
        bandCal := some (strField parts 3)
        bandName := some (strField parts 4)
        mode := some (strField parts 5)
        stepIdx := some (strField parts 6)
        bandwidthIdx := some (strField parts 7)
        agcIdx := some (strField parts 8)
        volume := some v9
        rssi_raw := some v10
        snr_raw := some v11
        tuningCapacitor := some (strField parts 12)
        voltage := some (voltField parts 13)
        seqnum := some (strField parts 14)
        frequency := some (format_frequency (PyVal.int (f.getD 0)) (PyVal.int (b.getD 0))
          (some (strField parts 5)))
        rssi := some (rssiString v10)
        snr := some (snrString v11)
        parse_error := none } := by
  unfold parseFromParts
  rw [h1, h2, h9, h10, h11]

/-- C4 counterexample: on the line 1.0,zz the BFO field is missing (only two
fields), yet the snapshot does not carry BFO defaulted to 0: the non numeric
frequency field aborts the parse first, so the BFO attribute is absent. -/
theorem claim4_counterexample :
    (partsOfLine "1.0,zz").get? 2 = none
      ∧ (parse_monitor_line "1.0,zz").currentBFO = none
      ∧ (parse_monitor_line "1.0,zz").currentBFO ≠ some 0 := by
  decide

/-- C4 amended: the parser always returns a snapshot (field count and
firmware version always present, never an exception); volume, RSSI, SNR and
voltage are explicitly absent, never zero, whenever their field is beyond
the count or blank; raw frequency and raw BFO default to 0 when their field
is beyond the count or blank, provided neither the frequency nor the BFO
conversion aborts the parse; when either of those aborts, both attributes
are absent instead. -/
theorem claim4_absent_defaults (line : String) :
    ((parse_monitor_line line).raw_parts_count = some (partsOfLine line).length
        ∧ (parse_monitor_line line).fw_version = some (strField (partsOfLine line) 0))
      ∧ (fieldAborts (partsOfLine line) 1 = false → fieldAborts (partsOfLine line) 2 = false →
          (blankOrMissing (partsOfLine line) 1 →
            (parse_monitor_line line).currentFrequency_raw = some 0)
          ∧ (blankOrMissing (partsOfLine line) 2 →
            (parse_monitor_line line).currentBFO = some 0))
      ∧ ((fieldAborts (partsOfLine line) 1 = true ∨ fieldAborts (partsOfLine line) 2 = true) →
          (parse_monitor_line line).currentFrequency_raw = none
            ∧ (parse_monitor_line line).currentBFO = none)
      ∧ (blankOrMissing (partsOfLine line) 9 →
          (parse_monitor_line line).volume = none
            ∨ (parse_monitor_line line).volume = some none)
      ∧ (blankOrMissing (partsOfLine line) 10 →
          (parse_monitor_line line).rssi_raw = none
            ∨ (parse_monitor_line line).rssi_raw = some none)
      ∧ (blankOrMissing (partsOfLine line) 11 →
          (parse_monitor_line line).snr_raw = none
            ∨ (parse_monitor_line line).snr_raw = some none)
      ∧ (blankOrMissing (partsOfLine line) 13 →
          (parse_monitor_line line).voltage = none
            ∨ (parse_monitor_line line).voltage = some VoltVal.pyNone) := by
  have hpm : parse_monitor_line line = parseFromParts (partsOfLine line) := rfl
  rcases he1 : pyIntField (partsOfLine line) 1 with e1 | f1
  · rw [hpm, parseFromParts_abort1 (partsOfLine line) e1 he1]
    refine ⟨⟨rfl, rfl⟩, ?_, ?_, ?_, ?_, ?_, ?_⟩
    · intro hf1 _
      exact absurd hf1 (by simp [fieldAborts, he1])
    · exact fun _ => ⟨rfl, rfl⟩
    · exact fun _ => Or.inl rfl
    · exact fun _ => Or.inl rfl
    · exact fun _ => Or.inl rfl
    · exact fun _ => Or.inl rfl
  · rcases he2 : pyIntField (partsOfLine line) 2 with e2 | b2
    · rw [hpm, parseFromParts_abort2 (partsOfLine line) f1 e2 he1 he2]
      refine ⟨⟨rfl, rfl⟩, ?_, ?_, ?_, ?_, ?_, ?_⟩
      · intro _ hf2
        exact absurd hf2 (by simp [fieldAborts, he2])
      · exact fun _ => ⟨rfl, rfl⟩
      · exact fun _ => Or.inl rfl
      · exact fun _ => Or.inl rfl
      · exact fun _ => Or.inl rfl
      · exact fun _ => Or.inl rfl
    · rcases he9 : pyIntField (partsOfLine line) 9 with e9 | v9
      · rw [hpm, parseFromParts_abort9 (partsOfLine line) f1 b2 e9 he1 he2 he9]
        refine ⟨⟨rfl, rfl⟩, ?_, ?_, ?_, ?_, ?_, ?_⟩
        · intro _ _
          refine ⟨fun hb => ?_, fun hb => ?_⟩
          · rw [pyIntField_ok_blank (partsOfLine line) 1 f1 he1 hb]
            rfl
          · rw [pyIntField_ok_blank (partsOfLine line) 2 b2 he2 hb]
            rfl
        · intro h
          rcases h with h | h
          · exact absurd h (by simp [fieldAborts, he1])
          · exact absurd h (by simp [fieldAborts, he2])
        · exact fun _ => Or.inl rfl
        · exact fun _ => Or.inl rfl
        · exact fun _ => Or.inl rfl
        · exact fun _ => Or.inl rfl
      · rcases he10 : pyIntField (partsOfLine line) 10 with e10 | v10
        · rw [hpm, parseFromParts_abort10 (partsOfLine line) f1 b2 v9 e10 he1 he2 he9 he10]
          refine ⟨⟨rfl, rfl⟩, ?_, ?_, ?_, ?_, ?_, ?_⟩
          · intro _ _
            refine ⟨fun hb => ?_, fun hb => ?_⟩
            · rw [pyIntField_ok_blank (partsOfLine line) 1 f1 he1 hb]
              rfl
            · rw [pyIntField_ok_blank (partsOfLine line) 2 b2 he2 hb]
              rfl
          · intro h
            rcases h with h | h
            · exact absurd h (by simp [fieldAborts, he1])
            · exact absurd h (by simp [fieldAborts, he2])
          · intro hb
            rw [pyIntField_ok_blank (partsOfLine line) 9 v9 he9 hb]
            exact Or.inr rfl
          · exact fun _ => Or.inl rfl
          · exact fun _ => Or.inl rfl
          · exact fun _ => Or.inl rfl
        · rcases he11 : pyIntField (partsOfLine line) 11 with e11 | v11
          · rw [hpm,
              parseFromParts_abort11 (partsOfLine line) f1 b2 v9 v10 e11 he1 he2 he9 he10 he11]
            refine ⟨⟨rfl, rfl⟩, ?_, ?_, ?_, ?_, ?_, ?_⟩
            · intro _ _
              refine ⟨fun hb => ?_, fun hb => ?_⟩
              · rw [pyIntField_ok_blank (partsOfLine line) 1 f1 he1 hb]
                rfl
              · rw [pyIntField_ok_blank (partsOfLine line) 2 b2 he2 hb]
                rfl
            · intro h
              rcases h with h | h
              · exact absurd h (by simp [fieldAborts, he1])
              · exact absurd h (by simp [fieldAborts, he2])
            · intro hb
              rw [pyIntField_ok_blank (partsOfLine line) 9 v9 he9 hb]
              exact Or.inr rfl
            · intro hb
              rw [pyIntField_ok_blank (partsOfLine line) 10 v10 he10 hb]
              exact Or.inr rfl
            · exact fun _ => Or.inl rfl
            · exact fun _ => Or.inl rfl
          · rw [hpm,
              parseFromParts_ok (partsOfLine line) f1 b2 v9 v10 v11 he1 he2 he9 he10 he11]
            refine ⟨⟨rfl, rfl⟩, ?_, ?_, ?_, ?_, ?_, ?_⟩
            · intro _ _
              refine ⟨fun hb => ?_, fun hb => ?_⟩
              · rw [pyIntField_ok_blank (partsOfLine line) 1 f1 he1 hb]
                rfl
              · rw [pyIntField_ok_blank (partsOfLine line) 2 b2 he2 hb]
                rfl
            · intro h
              rcases h with h | h
              · exact absurd h (by simp [fieldAborts, he1])
              · exact absurd h (by simp [fieldAborts, he2])
            · intro hb
              rw [pyIntField_ok_blank (partsOfLine line) 9 v9 he9 hb]
              exact Or.inr rfl
            · intro hb
              rw [pyIntField_ok_blank (partsOfLine line) 10 v10 he10 hb]
              exact Or.inr rfl
            · intro hb
              rw [pyIntField_ok_blank (partsOfLine line) 11 v11 he11 hb]
              exact Or.inr rfl
            · intro hb
              rw [voltField_blank (partsOfLine line) 13 hb]
              exact Or.inr rfl

/-- C4 witness: the empty line has every field beyond the count, so the raw
frequency defaults to 0 while the volume is explicitly absent. -/
theorem claim4_witness :
    (parse_monitor_line "").currentFrequency_raw = some 0
      ∧ ((parse_monitor_line "").volume = none ∨ (parse_monitor_line "").volume = some none) :=
  ⟨((claim4_absent_defaults "").2.1 (by decide) (by decide)).1 (by decide),
    (claim4_absent_defaults "").2.2.2.1 (by decide)⟩

/-- The first of the five int converted field positions whose conversion
raises, in source order: frequency 1, BFO 2, volume 9, RSSI 10, SNR 11. -/
def firstFail (parts : List String) : Option Nat :=
  [1, 2, 9, 10, 11].find? (fun i => fieldAborts parts i)

/-- Claim side check that the snapshot omits every attribute whose source
position lies strictly after field position p, including the derived
frequency, RSSI and SNR strings assigned at the very end. -/
def omitsAfter (o : ParseOut) (p : Nat) : Bool :=
  (decide (1 ≤ p) || o.currentFrequency_raw.isNone) &&
  (decide (2 ≤ p) || o.currentBFO.isNone) &&
  (decide (3 ≤ p) || o.bandCal.isNone) &&
  (decide (4 ≤ p) || o.bandName.isNone) &&
  (decide (5 ≤ p) || o.mode.isNone) &&
  (decide (6 ≤ p) || o.stepIdx.isNone) &&
  (decide (7 ≤ p) || o.bandwidthIdx.isNone) &&
  (decide (8 ≤ p) || o.agcIdx.isNone) &&
  (decide (9 ≤ p) || o.volume.isNone) &&
  (decide (10 ≤ p) || o.rssi_raw.isNone) &&
  (decide (11 ≤ p) || o.snr_raw.isNone) &&
  (decide (12 ≤ p) || o.tuningCapacitor.isNone) &&
  (decide (13 ≤ p) || o.voltage.isNone) &&
  (decide (14 ≤ p) || o.seqnum.isNone) &&
  o.frequency.isNone && o.rssi.isNone && o.snr.isNone

theorem snapshot_valid_of_fw (p : ParseOut) (s : String) (hf : p.fw_version = some s)
    (hs : s ≠ "") : snapshot_valid p = true := by
  unfold snapshot_valid
  rw [hf]
  cases hfr : p.currentFrequency_raw <;> simp [hs]

/-- C10: on a line where some non blank numeric field is non numeric (the
first such being at position p), the parser returns a snapshot carrying the
parse error marker and omitting every attribute positioned after the failing
field; and when that truncated snapshot still has a non empty firmware
version, the reader loop publishes it, wholesale replacing the published
snapshot with the truncated error marked one. -/
theorem claim10_error_snapshot_published (st : MonitorState) (raw : String) (p : Nat)
    (hp : firstFail (partsOfLine (pyStrip raw)) = some p) :
    (parse_monitor_line (pyStrip raw)).parse_error ≠ none
      ∧ omitsAfter (parse_monitor_line (pyStrip raw)) p = true
      ∧ (∀ s, (parse_monitor_line (pyStrip raw)).fw_version = some s → s ≠ "" →
          containsComma (pyStrip raw) = true →
          (monitor_reader_step st raw).monitor_parsed = some (parse_monitor_line (pyStrip raw))
            ∧ (monitor_reader_step st raw).monitor_active = true) := by
  have hpm : parse_monitor_line (pyStrip raw) = parseFromParts (partsOfLine (pyStrip raw)) :=
    rfl
  have hpub : ∀ s, (parse_monitor_line (pyStrip raw)).fw_version = some s → s ≠ "" →
      containsComma (pyStrip raw) = true →
      (monitor_reader_step st raw).monitor_parsed = some (parse_monitor_line (pyStrip raw))
        ∧ (monitor_reader_step st raw).monitor_active = true := by
    intro s hfw hs hc
    have hne : ¬ (pyStrip raw = "") := by
      intro h0
      rw [h0] at hc
      exact absurd hc (by decide)
    have hv := snapshot_valid_of_fw (parse_monitor_line (pyStrip raw)) s hfw hs
    unfold monitor_reader_step
    simp [hne, hc, hv]
  cases ha1 : fieldAborts (partsOfLine (pyStrip raw)) 1 with
  | true =>
    have hp1 : p = 1 := by
      simp [firstFail, List.find?, ha1] at hp
      omega
    subst hp1
    rcases he1 : pyIntField (partsOfLine (pyStrip raw)) 1 with e1 | f1
    · refine ⟨?_, ?_, hpub⟩
      · rw [hpm, parseFromParts_abort1 (partsOfLine (pyStrip raw)) e1 he1]
        simp
      · rw [hpm, parseFromParts_abort1 (partsOfLine (pyStrip raw)) e1 he1]
        rfl
    · simp [fieldAborts, he1] at ha1
  | false =>
  cases ha2 : fieldAborts (partsOfLine (pyStrip raw)) 2 with
  | true =>
    have hp2 : p = 2 := by
      simp [firstFail, List.find?, ha1, ha2] at hp
      omega
    subst hp2
    rcases he1 : pyIntField (partsOfLine (pyStrip raw)) 1 with e1 | f1
    · simp [fieldAborts, he1] at ha1
    · rcases he2 : pyIntField (partsOfLine (pyStrip raw)) 2 with e2 | b2
      · refine ⟨?_, ?_, hpub⟩
        · rw [hpm, parseFromParts_abort2 (partsOfLine (pyStrip raw)) f1 e2 he1 he2]
          simp
        · rw [hpm, parseFromParts_abort2 (partsOfLine (pyStrip raw)) f1 e2 he1 he2]
          rfl
      · simp [fieldAborts, he2] at ha2
  | false =>
  cases ha9 : fieldAborts (partsOfLine (pyStrip raw)) 9 with
  | true =>
    have hp9 : p = 9 := by
      simp [firstFail, List.find?, ha1, ha2, ha9] at hp
      omega
    subst hp9
    rcases he1 : pyIntField (partsOfLine (pyStrip raw)) 1 with e1 | f1
    · simp [fieldAborts, he1] at ha1
    · rcases he2 : pyIntField (partsOfLine (pyStrip raw)) 2 with e2 | b2
      · simp [fieldAborts, he2] at ha2
      · rcases he9 : pyIntField (partsOfLine (pyStrip raw)) 9 with e9 | v9
        · refine ⟨?_, ?_, hpub⟩
          · rw [hpm, parseFromParts_abort9 (partsOfLine (pyStrip raw)) f1 b2 e9 he1 he2 he9]
            simp
          · rw [hpm, parseFromParts_abort9 (partsOfLine (pyStrip raw)) f1 b2 e9 he1 he2 he9]
            rfl
        · simp [fieldAborts, he9] at ha9
  | false =>
  cases ha10 : fieldAborts (partsOfLine (pyStrip raw)) 10 with
  | true =>
    have hp10 : p = 10 := by
      simp [firstFail, List.find?, ha1, ha2, ha9, ha10] at hp
      omega
    subst hp10
    rcases he1 : pyIntField (partsOfLine (pyStrip raw)) 1 with e1 | f1
    · simp [fieldAborts, he1] at ha1
    · rcases he2 : pyIntField (partsOfLine (pyStrip raw)) 2 with e2 | b2
      · simp [fieldAborts, he2] at ha2
      · rcases he9 : pyIntField (partsOfLine (pyStrip raw)) 9 with e9 | v9
        · simp [fieldAborts, he9] at ha9
        · rcases he10 : pyIntField (partsOfLine (pyStrip raw)) 10 with e10 | v10
          · refine ⟨?_, ?_, hpub⟩
            · rw [hpm, parseFromParts_abort10 (partsOfLine (pyStrip raw)) f1 b2 v9 e10
                he1 he2 he9 he10]
              simp
            · rw [hpm, parseFromParts_abort10 (partsOfLine (pyStrip raw)) f1 b2 v9 e10
                he1 he2 he9 he10]
              rfl
          · simp [fieldAborts, he10] at ha10
  | false =>
  cases ha11 : fieldAborts (partsOfLine (pyStrip raw)) 11 with
  | true =>
    have hp11 : p = 11 := by
      simp [firstFail, List.find?, ha1, ha2, ha9, ha10, ha11] at hp
      omega
    subst hp11
    rcases he1 : pyIntField (partsOfLine (pyStrip raw)) 1 with e1 | f1
    · simp [fieldAborts, he1] at ha1
    · rcases he2 : pyIntField (partsOfLine (pyStrip raw)) 2 with e2 | b2
      · simp [fieldAborts, he2] at ha2
      · rcases he9 : pyIntField (partsOfLine (pyStrip raw)) 9 with e9 | v9
        · simp [fieldAborts, he9] at ha9
        · rcases he10 : pyIntField (partsOfLine (pyStrip raw)) 10 with e10 | v10
          · simp [fieldAborts, he10] at ha10
          · rcases he11 : pyIntField (partsOfLine (pyStrip raw)) 11 with e11 | v11
            · refine ⟨?_, ?_, hpub⟩
              · rw [hpm, parseFromParts_abort11 (partsOfLine (pyStrip raw)) f1 b2 v9 v10 e11
                  he1 he2 he9 he10 he11]
                simp
              · rw [hpm, parseFromParts_abort11 (partsOfLine (pyStrip raw)) f1 b2 v9 v10 e11
                  he1 he2 he9 he10 he11]
                rfl
            · simp [fieldAborts, he11] at ha11
  | false =>
    simp [firstFail, List.find?, ha1, ha2, ha9, ha10, ha11] at hp

/-- C10 witness: the line FW,1x aborts at the frequency field, yet its non
empty firmware version makes the reader loop publish the truncated error
marked snapshot. -/
theorem claim10_witness :
    (monitor_reader_step
      { latest_raw_line := ""
        monitor_parsed := none
        monitor_active := false } "FW,1x").monitor_parsed =
      some (parse_monitor_line (pyStrip "FW,1x")) :=
  ((claim10_error_snapshot_published
    { latest_raw_line := ""
      monitor_parsed := none
      monitor_active := false } "FW,1x" 1 (by decide)).2.2 "FW"
    (by decide) (by decide) (by decide)).1

/-- C9 witness: a reopen failing at both rates after a successful open at
the fallback rate; the stale closed handle remains and a send fails with the
device error rather than the no link error. -/
theorem claim9_witness :
    (open_serial (fun _ => false)
        { ser := some { port := "COM3", baud := 9600, isOpen := true } }
        "COM3" DEFAULT_BAUD).1.ser =
      some { port := "COM3", baud := 9600, isOpen := false } :=
  (claim9_stale_handle (fun _ => false)
    { ser := some { port := "COM3", baud := 9600, isOpen := true } }
    "COM3" DEFAULT_BAUD { port := "COM3", baud := 9600, isOpen := true }
    rfl rfl rfl).2.1

end ATSMini
